import Mathlib

/-!
Verification of `scripts/fetch_nyu_schedge.py`.

The script fetches course data over HTTP, transforms it with
`transform_to_quacs_schema` and writes the result as JSON.  We embed the
transform shallowly: JSON/Python values become the inductive `JVal`,
Python `dict.get` / truthiness / `or` / `str()` / iteration become
explicit Lean functions, and code that can raise a Python exception is
modelled in the `Except String` monad (an exception is `.error msg`).
The nested `for` loops of the transform are split into one Lean function
per loop, each translated line by line from the source.
-/

/-- A Python/JSON value: None, bool, int, str, list, dict.
Numbers are modelled as integers; every numeric literal in the source
(`0`, the credits values) is an integer.  Dicts are association lists in
insertion order, with unique keys, as produced by parsing JSON. -/
inductive JVal where
  | null : JVal
  | bool : Bool → JVal
  | num : Int → JVal
  | str : String → JVal
  | arr : List JVal → JVal
  | obj : List (String × JVal) → JVal

/-- Python truthiness: `None`, `False`, `0`, `""`, `[]`, `UNKNOWN` are falsy. -/
def truthy : JVal → Bool
  | .null => false
  | .bool b => b
  | .num n => n != 0
  | .str s => s != ""
  | .arr xs => !xs.isEmpty
  | .obj kvs => !kvs.isEmpty

/-- Python `a or b`: `a` if `a` is truthy, else `b` (verbatim, even if falsy). -/
def pyOr (a b : JVal) : JVal := if truthy a then a else b

mutual

/-- Python `repr` of a value, as used by `str()` on containers.  String
escaping inside `repr` of a string is simplified to plain quoting; no
claim depends on `repr` of a string containing a quote character. -/
def pyRepr : JVal → String
  | .null => "None"
  | .bool true => "True"
  | .bool false => "False"
  | .num n => toString n
  | .str s => "\x27" ++ s ++ "\x27"
  | .arr xs => "[" ++ String.intercalate ", " (pyReprList xs) ++ "]"
  | .obj kvs => "\x7b" ++ String.intercalate ", " (pyReprPairs kvs) ++ "\x7d"

/-- `repr` of each element of a list. -/
def pyReprList : List JVal → List String
  | [] => []
  | x :: xs => pyRepr x :: pyReprList xs

/-- `repr` of each key-value pair of a dict. -/
def pyReprPairs : List (String × JVal) → List String
  | [] => []
  | (k, v) :: kvs => ("\x27" ++ k ++ "\x27: " ++ pyRepr v) :: pyReprPairs kvs

end

/-- Python `str()`: identity on strings, `repr`-like elsewhere. -/
def pyStr : JVal → String
  | .str s => s
  | v => pyRepr v

/-- An ASCII whitespace character, as stripped by Python `str.strip()`
(the full Python version also strips rarer Unicode whitespace; no input
in this development contains any). -/
def isPySpace (c : Char) : Bool :=
  c == ' ' || c == '\t' || c == '\n' || c == '\r' || c == '\x0b' || c == '\x0c'

/-- Python `s.strip()`: remove leading and trailing whitespace. -/
def pyStrip (s : String) : String :=
  String.mk (((s.data.dropWhile isPySpace).reverse.dropWhile isPySpace).reverse)

/-- Python `x.get(k)`: `None` when the key is absent; raises
`AttributeError` when `x` is not a dict. -/
def pyGet : JVal → String → Except String JVal
  | .obj kvs, k => .ok ((kvs.lookup k).getD .null)
  | _, _ => .error "AttributeError: object has no attribute get"

/-- Python `x.get(k, d)`: the stored value when the key is present (even
when that value is falsy), `d` when absent; raises when `x` is not a dict. -/
def pyGetD : JVal → String → JVal → Except String JVal
  | .obj kvs, k, d => .ok ((kvs.lookup k).getD d)
  | _, _, _ => .error "AttributeError: object has no attribute get"

/-- Python `for x in v`: lists iterate their elements, strings their
one-character substrings, dicts their keys; other values raise `TypeError`. -/
def pyIter : JVal → Except String (List JVal)
  | .arr xs => .ok xs
  | .str s => .ok (s.toList.map (fun ch => .str (String.mk [ch])))
  | .obj kvs => .ok (kvs.map (fun kv => .str kv.1))
  | _ => .error "TypeError: object is not iterable"

/-- Key lookup on a dict value (spec-side accessor used to state claims). -/
def getField (v : JVal) (k : String) : Option JVal :=
  match v with
  | .obj kvs => kvs.lookup k
  | _ => none

/-- The keys of a dict value, in order. -/
def keysOf : JVal → List String
  | .obj kvs => kvs.map Prod.fst
  | _ => []

/-- The body of the meetings loop (source lines 89-99): one output
meeting dict built from one raw meeting `m`. -/
def transformMeeting (m : JVal) : Except String JVal := do
  let d1 ← pyGet m "days"
  let d2 ← pyGet m "pattern"
  let days := pyOr d1 (pyOr d2 (JVal.str ""))
  let start ← pyGet m "startTime"
  let stop ← pyGet m "endTime"
  let ca1 ← pyGet m "campus"
  let ca2 ← pyGet m "campusName"
  let b1 ← pyGet m "building"
  let b2 ← pyGet m "buildingName"
  let r1 ← pyGet m "room"
  let mo1 ← pyGet m "instructionMode"
  let mo2 ← pyGet m "mode"
  return JVal.obj [
    ("days", days),
    ("start", start),
    ("end", stop),
    ("campus", pyOr ca1 ca2),
    ("building", pyOr b1 b2),
    ("room", pyOr r1 (JVal.str "")),
    ("modality", pyOr mo1 (pyOr mo2 (JVal.str "")))]

/-- The meetings loop (source lines 88-99) over an already-iterated list. -/
def transformMeetings : List JVal → Except String (List JVal)
  | [] => .ok []
  | m :: rest => do
    let om ← transformMeeting m
    let orest ← transformMeetings rest
    return om :: orest

/-- The instructors loop (source lines 81-86): collect normalised names,
skipping falsy ones.  `name = i.get("name") or f"{first} {last}".strip()`
appends the raw `name` value verbatim when it is truthy. -/
def collectInstructors : List JVal → Except String (List JVal)
  | [] => .ok []
  | i :: rest => do
    let n1 ← pyGet i "name"
    let fn ← pyGetD i "firstName" (JVal.str "")
    let ln ← pyGetD i "lastName" (JVal.str "")
    let name := pyOr n1 (JVal.str (pyStrip (pyStr fn ++ " " ++ pyStr ln)))
    let orest ← collectInstructors rest
    return (if truthy name then name :: orest else orest)

/-- The body of the sections loop (source lines 79-105): one output
section dict built from one raw section `s`. -/
def transformSection (s : JVal) : Except String JVal := do
  let c1 ← pyGet s "sectionCode"
  let c2 ← pyGet s "code"
  let c3 ← pyGet s "registrationNumber"
  let sec_code := pyOr c1 (pyOr c2 (pyOr c3 (JVal.str "")))
  let instrsVal ← pyGetD s "instructors" (JVal.arr [])
  let instrsList ← pyIter instrsVal
  let instrs ← collectInstructors instrsList
  let meetingsVal ← pyGetD s "meetings" (JVal.arr [])
  let meetingsList ← pyIter meetingsVal
  let meetings_out ← transformMeetings meetingsList
  return JVal.obj [
    ("section", sec_code),
    ("instructors", JVal.arr instrs),
    ("meetings", JVal.arr meetings_out)]

/-- The sections loop (source lines 78-105) over an already-iterated list. -/
def transformSections : List JVal → Except String (List JVal)
  | [] => .ok []
  | s :: rest => do
    let os ← transformSection s
    let orest ← transformSections rest
    return os :: orest

/-- The body of the courses loop (source lines 70-114): one output
course dict built from one raw course `c`. -/
def transformCourse (c : JVal) : Except String JVal := do
  let s1 ← pyGet c "subjectCode"
  let s2 ← pyGet c "subject"
  let subject := pyOr s1 (pyOr s2 (JVal.str ""))
  let n1 ← pyGet c "courseNumber"
  let n2 ← pyGet c "code"
  let n3 ← pyGet c "catalogNumber"
  let number := pyOr n1 (pyOr n2 (pyOr n3 (JVal.str "")))
  let t1 ← pyGet c "name"
  let t2 ← pyGet c "title"
  let title := pyOr t1 (pyOr t2 (JVal.str ""))
  let cr1 ← pyGet c "credits"
  let cr2 ← pyGet c "minCredits"
  let credits := pyOr cr1 (pyOr cr2 (JVal.num 0))
  let sectionsVal ← pyGetD c "sections" (JVal.arr [])
  let sectionsList ← pyIter sectionsVal
  let sections_out ← transformSections sectionsList
  return JVal.obj [
    ("id", JVal.str (pyStrip (pyStr subject ++ " " ++ pyStr number))),
    ("subject", subject),
    ("number", JVal.str (pyStr number)),
    ("title", title),
    ("credits", credits),
    ("sections", JVal.arr sections_out)]

/-- The courses loop (source lines 69-114) over the raw courses list. -/
def transformCourses : List JVal → Except String (List JVal)
  | [] => .ok []
  | c :: rest => do
    let oc ← transformCourse c
    let orest ← transformCourses rest
    return oc :: orest

/-- `transform_to_quacs_schema` (source lines 61-116): the whole
transform, returning the top-level document or the raised exception. -/
def transform_to_quacs_schema (raw_courses : List JVal) : Except String JVal := do
  let out_courses ← transformCourses raw_courses
  return JVal.obj [("courses", JVal.arr out_courses)]

/-- One console message printed by `main` (source lines 119-136).  The
string payloads carry what the corresponding `print` interpolates. -/
inductive LogMsg where
  | fetchingTerms : LogMsg
  | termsExample : String → LogMsg
  | termsWarning : String → LogMsg
  | fetchingCourses : LogMsg
  | transforming : Nat → LogMsg
  | wrote : LogMsg
deriving DecidableEq

/-- The environment of one run: what the two HTTP fetches return.
`get_json` raises on timeout, connection failure, non-success status or
a malformed JSON body; all of those are the `.error` case.  The courses
payload, when the fetch succeeds, is the parsed JSON list of raw courses. -/
structure RunEnv where
  termsResult : Except String JVal
  coursesResult : Except String (List JVal)

/-- The observable outcome of one run: the process result (`.error` is
an unhandled exception, hence a non-zero exit), the content of the
output file after the run, and the console log. -/
structure RunOutcome where
  result : Except String Unit
  file : Option JVal
  logs : List LogMsg

/-- `main` (source lines 118-136), over an environment `env` and the
output-file content `fs0` present before the run (`none` = absent).
The terms fetch is wrapped in try/except and only logged; the courses
fetch and the transform propagate their exception, leaving the file
untouched; on success the document is written, replacing `fs0`. -/
def runMain (env : RunEnv) (fs0 : Option JVal) : RunOutcome :=
  let logs1 := [LogMsg.fetchingTerms]
  let logs2 := logs1 ++ match env.termsResult with
    | .ok terms => [LogMsg.termsExample ((pyStr terms).take 200)]
    | .error e => [LogMsg.termsWarning e]
  let logs3 := logs2 ++ [LogMsg.fetchingCourses]
  match env.coursesResult with
  | .error e => ⟨.error e, fs0, logs3⟩
  | .ok raw_courses =>
    let logs4 := logs3 ++ [LogMsg.transforming raw_courses.length]
    match transform_to_quacs_schema raw_courses with
    | .error e => ⟨.error e, fs0, logs4⟩
    | .ok out => ⟨.ok (), some out, logs4 ++ [LogMsg.wrote]⟩

/-- Claim-side expression for the subject chain (source line 72). -/
def subjectOf (kvs : List (String × JVal)) : JVal :=
  pyOr ((kvs.lookup "subjectCode").getD .null)
    (pyOr ((kvs.lookup "subject").getD .null) (JVal.str ""))

/-- Claim-side expression for the number chain (source line 73). -/
def numberOf (kvs : List (String × JVal)) : JVal :=
  pyOr ((kvs.lookup "courseNumber").getD .null)
    (pyOr ((kvs.lookup "code").getD .null)
      (pyOr ((kvs.lookup "catalogNumber").getD .null) (JVal.str "")))

/-- Claim-side expression for the credits chain (source line 75). -/
def creditsOf (kvs : List (String × JVal)) : JVal :=
  pyOr ((kvs.lookup "credits").getD .null)
    (pyOr ((kvs.lookup "minCredits").getD .null) (JVal.num 0))

/-- Claim-side expression for the derived instructor name
`f"{i.get('firstName','')} {i.get('lastName','')}".strip()` (source line 84). -/
def joinedName (kvs : List (String × JVal)) : String :=
  pyStrip (pyStr ((kvs.lookup "firstName").getD (JVal.str "")) ++ " " ++
    pyStr ((kvs.lookup "lastName").getD (JVal.str "")))

/-- Is the value a JSON number? -/
def isNum : JVal → Bool
  | .num _ => true
  | _ => false

/-- Is the value a dict? -/
def isObj : JVal → Bool
  | .obj _ => true
  | _ => false

/-- The fixed key set of an output meeting, in emission order. -/
def meetingKeys : List String :=
  ["days", "start", "end", "campus", "building", "room", "modality"]

/-- The fixed key set of an output section, in emission order. -/
def sectionKeys : List String := ["section", "instructors", "meetings"]

/-- The fixed key set of an output course, in emission order. -/
def courseKeys : List String :=
  ["id", "subject", "number", "title", "credits", "sections"]

/-- An output meeting carries exactly the seven fixed keys. -/
def meetingShapeOk (v : JVal) : Bool := keysOf v == meetingKeys

/-- An output section carries exactly the three fixed keys, with list
values for instructors and meetings, every meeting well-shaped. -/
def sectionShapeOk (v : JVal) : Bool :=
  (keysOf v == sectionKeys) &&
  (match getField v "instructors" with
   | some (.arr _) => true
   | _ => false) &&
  (match getField v "meetings" with
   | some (.arr ms) => ms.all meetingShapeOk
   | _ => false)

/-- An output course carries exactly the six fixed keys, with a list of
well-shaped sections. -/
def courseShapeOk (v : JVal) : Bool :=
  (keysOf v == courseKeys) &&
  (match getField v "sections" with
   | some (.arr ss) => ss.all sectionShapeOk
   | _ => false)

/-- The output document is `\x7b"courses": [...]\x7d` with every course
well-shaped. -/
def docShapeOk (v : JVal) : Bool :=
  match v with
  | .obj [("courses", .arr cs)] => cs.all courseShapeOk
  | _ => false

/-- The transform result is a well-formed top-level document. -/
def producesDoc (r : Except String JVal) : Bool :=
  match r with
  | .ok (.obj [("courses", .arr _)]) => true
  | _ => false

/-- A raw section is a dict whose `instructors` and `meetings` values,
when present, are lists of dicts. -/
def wsSection (s : JVal) : Bool :=
  match s with
  | .obj kvs =>
    (match kvs.lookup "instructors" with
     | none => true
     | some (.arr is) => is.all isObj
     | some _ => false) &&
    (match kvs.lookup "meetings" with
     | none => true
     | some (.arr ms) => ms.all isObj
     | some _ => false)
  | _ => false

/-- A raw course is a dict whose `sections` value, when present, is a
list of well-shaped raw sections. -/
def wsCourse (c : JVal) : Bool :=
  match c with
  | .obj kvs =>
    match kvs.lookup "sections" with
    | none => true
    | some (.arr ss) => ss.all wsSection
    | some _ => false
  | _ => false

/-- A raw courses list whose nested collections are all lists of dicts. -/
def wsCourses (raw : List JVal) : Bool := raw.all wsCourse

theorem eBindOk {α β : Type} (a : α) (f : α → Except String β) :
    (Except.ok a >>= f) = f a := rfl

theorem eBindErr {α β : Type} (e : String) (f : α → Except String β) :
    ((Except.error e : Except String α) >>= f) = Except.error e := rfl

theorem ePureEq {α : Type} (a : α) :
    (pure a : Except String α) = Except.ok a := rfl

theorem transformMeeting_obj (kvs : List (String × JVal)) :
    transformMeeting (JVal.obj kvs) = .ok (JVal.obj [
      ("days", pyOr ((kvs.lookup "days").getD .null)
        (pyOr ((kvs.lookup "pattern").getD .null) (JVal.str ""))),
      ("start", (kvs.lookup "startTime").getD .null),
      ("end", (kvs.lookup "endTime").getD .null),
      ("campus", pyOr ((kvs.lookup "campus").getD .null)
        ((kvs.lookup "campusName").getD .null)),
      ("building", pyOr ((kvs.lookup "building").getD .null)
        ((kvs.lookup "buildingName").getD .null)),
      ("room", pyOr ((kvs.lookup "room").getD .null) (JVal.str "")),
      ("modality", pyOr ((kvs.lookup "instructionMode").getD .null)
        (pyOr ((kvs.lookup "mode").getD .null) (JVal.str "")))]) := rfl

theorem transformMeeting_not_obj (m : JVal) (h : isObj m = false) :
    transformMeeting m = .error "AttributeError: object has no attribute get" := by
  cases m <;> first | rfl | simp [isObj] at h

theorem collectInstructors_cons_obj (kvs : List (String × JVal)) (rest : List JVal) :
    collectInstructors (JVal.obj kvs :: rest) =
      (collectInstructors rest >>= fun orest =>
        pure (if truthy (pyOr ((kvs.lookup "name").getD .null) (JVal.str (joinedName kvs)))
          then pyOr ((kvs.lookup "name").getD .null) (JVal.str (joinedName kvs)) :: orest
          else orest)) := rfl

theorem collectInstructors_cons_not_obj (i : JVal) (rest : List JVal) (h : isObj i = false) :
    collectInstructors (i :: rest) = .error "AttributeError: object has no attribute get" := by
  cases i <;> first | rfl | simp [isObj] at h

theorem transformSection_obj (kvs : List (String × JVal)) :
    transformSection (JVal.obj kvs) =
      (pyIter ((kvs.lookup "instructors").getD (JVal.arr [])) >>= fun instrsList =>
       collectInstructors instrsList >>= fun instrs =>
       pyIter ((kvs.lookup "meetings").getD (JVal.arr [])) >>= fun meetingsList =>
       transformMeetings meetingsList >>= fun meetings_out =>
       pure (JVal.obj [
         ("section", pyOr ((kvs.lookup "sectionCode").getD .null)
           (pyOr ((kvs.lookup "code").getD .null)
             (pyOr ((kvs.lookup "registrationNumber").getD .null) (JVal.str "")))),
         ("instructors", JVal.arr instrs),
         ("meetings", JVal.arr meetings_out)])) := rfl

theorem transformSection_not_obj (s : JVal) (h : isObj s = false) :
    transformSection s = .error "AttributeError: object has no attribute get" := by
  cases s <;> first | rfl | simp [isObj] at h

theorem transformCourse_obj (kvs : List (String × JVal)) :
    transformCourse (JVal.obj kvs) =
      (pyIter ((kvs.lookup "sections").getD (JVal.arr [])) >>= fun sectionsList =>
       transformSections sectionsList >>= fun sections_out =>
       pure (JVal.obj [
         ("id", JVal.str (pyStrip (pyStr (subjectOf kvs) ++ " " ++ pyStr (numberOf kvs)))),
         ("subject", subjectOf kvs),
         ("number", JVal.str (pyStr (numberOf kvs))),
         ("title", pyOr ((kvs.lookup "name").getD .null)
           (pyOr ((kvs.lookup "title").getD .null) (JVal.str ""))),
         ("credits", creditsOf kvs),
         ("sections", JVal.arr sections_out)])) := rfl

theorem transformCourse_not_obj (c : JVal) (h : isObj c = false) :
    transformCourse c = .error "AttributeError: object has no attribute get" := by
  cases c <;> first | rfl | simp [isObj] at h

theorem meetingShape_of_ok {m om : JVal} (h : transformMeeting m = Except.ok om) :
    meetingShapeOk om = true := by
  cases m
  case obj kvs =>
    rw [transformMeeting_obj] at h
    injection h with h
    subst h
    rfl
  all_goals exact Except.noConfusion h

theorem transformMeetings_all_ok {ms oms : List JVal}
    (h : transformMeetings ms = Except.ok oms) : oms.all meetingShapeOk = true := by
  induction ms generalizing oms with
  | nil =>
    simp only [transformMeetings] at h
    injection h with h
    subst h
    rfl
  | cons m rest ih =>
    simp only [transformMeetings] at h
    cases hm : transformMeeting m with
    | error e => rw [hm, eBindErr] at h; exact Except.noConfusion h
    | ok om =>
      rw [hm, eBindOk] at h
      cases hr : transformMeetings rest with
      | error e => rw [hr, eBindErr] at h; exact Except.noConfusion h
      | ok orest =>
        rw [hr, eBindOk, ePureEq] at h
        injection h with h
        subst h
        rw [List.all_cons, meetingShape_of_ok hm, ih hr]
        rfl

theorem sectionShape_of_ok {s os : JVal} (h : transformSection s = Except.ok os) :
    sectionShapeOk os = true := by
  cases s
  case obj kvs =>
    rw [transformSection_obj] at h
    cases hI : pyIter ((kvs.lookup "instructors").getD (JVal.arr [])) with
    | error e => rw [hI, eBindErr] at h; exact Except.noConfusion h
    | ok instrsList =>
      rw [hI, eBindOk] at h
      cases hC : collectInstructors instrsList with
      | error e => rw [hC, eBindErr] at h; exact Except.noConfusion h
      | ok instrs =>
        rw [hC, eBindOk] at h
        cases hM : pyIter ((kvs.lookup "meetings").getD (JVal.arr [])) with
        | error e => rw [hM, eBindErr] at h; exact Except.noConfusion h
        | ok meetingsList =>
          rw [hM, eBindOk] at h
          cases hT : transformMeetings meetingsList with
          | error e => rw [hT, eBindErr] at h; exact Except.noConfusion h
          | ok meetings_out =>
            rw [hT, eBindOk, ePureEq] at h
            injection h with h
            subst h
            exact transformMeetings_all_ok hT
  all_goals exact Except.noConfusion h

theorem transformSections_all_ok {ss oss : List JVal}
    (h : transformSections ss = Except.ok oss) : oss.all sectionShapeOk = true := by
  induction ss generalizing oss with
  | nil =>
    simp only [transformSections] at h
    injection h with h
    subst h
    rfl
  | cons s rest ih =>
    simp only [transformSections] at h
    cases hs : transformSection s with
    | error e => rw [hs, eBindErr] at h; exact Except.noConfusion h
    | ok os =>
      rw [hs, eBindOk] at h
      cases hr : transformSections rest with
      | error e => rw [hr, eBindErr] at h; exact Except.noConfusion h
      | ok orest =>
        rw [hr, eBindOk, ePureEq] at h
        injection h with h
        subst h
        rw [List.all_cons, sectionShape_of_ok hs, ih hr]
        rfl

theorem courseShape_of_ok {c oc : JVal} (h : transformCourse c = Except.ok oc) :
    courseShapeOk oc = true := by
  cases c
  case obj kvs =>
    rw [transformCourse_obj] at h
    cases hI : pyIter ((kvs.lookup "sections").getD (JVal.arr [])) with
    | error e => rw [hI, eBindErr] at h; exact Except.noConfusion h
    | ok sectionsList =>
      rw [hI, eBindOk] at h
      cases hS : transformSections sectionsList with
      | error e => rw [hS, eBindErr] at h; exact Except.noConfusion h
      | ok sections_out =>
        rw [hS, eBindOk, ePureEq] at h
        injection h with h
        subst h
        exact transformSections_all_ok hS
  all_goals exact Except.noConfusion h

theorem transformCourses_all_ok {cs ocs : List JVal}
    (h : transformCourses cs = Except.ok ocs) : ocs.all courseShapeOk = true := by
  induction cs generalizing ocs with
  | nil =>
    simp only [transformCourses] at h
    injection h with h
    subst h
    rfl
  | cons c rest ih =>
    simp only [transformCourses] at h
    cases hc : transformCourse c with
    | error e => rw [hc, eBindErr] at h; exact Except.noConfusion h
    | ok oc =>
      rw [hc, eBindOk] at h
      cases hr : transformCourses rest with
      | error e => rw [hr, eBindErr] at h; exact Except.noConfusion h
      | ok orest =>
        rw [hr, eBindOk, ePureEq] at h
        injection h with h
        subst h
        rw [List.all_cons, courseShape_of_ok hc, ih hr]
        rfl

theorem collectInstructors_ex {is : List JVal} (h : is.all isObj = true) :
    ∃ out, collectInstructors is = Except.ok out := by
  induction is with
  | nil => exact ⟨[], rfl⟩
  | cons i rest ih =>
    rw [List.all_cons, Bool.and_eq_true] at h
    obtain ⟨out, hout⟩ := ih h.2
    cases i
    case obj kvs =>
      rw [collectInstructors_cons_obj, hout, eBindOk, ePureEq]
      exact ⟨_, rfl⟩
    all_goals simp [isObj] at h

theorem transformMeetings_ex {ms : List JVal} (h : ms.all isObj = true) :
    ∃ out, transformMeetings ms = Except.ok out := by
  induction ms with
  | nil => exact ⟨[], rfl⟩
  | cons m rest ih =>
    rw [List.all_cons, Bool.and_eq_true] at h
    obtain ⟨out, hout⟩ := ih h.2
    cases m
    case obj kvs =>
      simp only [transformMeetings]
      rw [transformMeeting_obj, eBindOk, hout, eBindOk, ePureEq]
      exact ⟨_, rfl⟩
    all_goals simp [isObj] at h

theorem transformSection_ex {s : JVal} (h : wsSection s = true) :
    ∃ os, transformSection s = Except.ok os := by
  cases s
  case obj kvs =>
    rw [wsSection, Bool.and_eq_true] at h
    obtain ⟨hA, hB⟩ := h
    have hIL : ∃ is, pyIter ((kvs.lookup "instructors").getD (JVal.arr [])) = .ok is ∧
        is.all isObj = true := by
      cases hI : kvs.lookup "instructors" with
      | none => exact ⟨[], rfl, rfl⟩
      | some v =>
        rw [hI] at hA
        cases v
        case arr is => exact ⟨is, rfl, hA⟩
        all_goals exact Bool.noConfusion hA
    have hML : ∃ ms, pyIter ((kvs.lookup "meetings").getD (JVal.arr [])) = .ok ms ∧
        ms.all isObj = true := by
      cases hM : kvs.lookup "meetings" with
      | none => exact ⟨[], rfl, rfl⟩
      | some v =>
        rw [hM] at hB
        cases v
        case arr ms => exact ⟨ms, rfl, hB⟩
        all_goals exact Bool.noConfusion hB
    obtain ⟨is, hiter, hobjs⟩ := hIL
    obtain ⟨ms, hmiter, hmobjs⟩ := hML
    obtain ⟨instrs, hinstrs⟩ := collectInstructors_ex hobjs
    obtain ⟨oms, homs⟩ := transformMeetings_ex hmobjs
    rw [transformSection_obj, hiter, eBindOk, hinstrs, eBindOk, hmiter, eBindOk,
      homs, eBindOk, ePureEq]
    exact ⟨_, rfl⟩
  all_goals simp [wsSection] at h

theorem transformSections_ex {ss : List JVal} (h : ss.all wsSection = true) :
    ∃ out, transformSections ss = Except.ok out := by
  induction ss with
  | nil => exact ⟨[], rfl⟩
  | cons s rest ih =>
    rw [List.all_cons, Bool.and_eq_true] at h
    obtain ⟨out, hout⟩ := ih h.2
    obtain ⟨os, hos⟩ := transformSection_ex h.1
    simp only [transformSections]
    rw [hos, eBindOk, hout, eBindOk, ePureEq]
    exact ⟨_, rfl⟩

theorem transformCourse_ex {c : JVal} (h : wsCourse c = true) :
    ∃ oc, transformCourse c = Except.ok oc := by
  cases c
  case obj kvs =>
    rw [wsCourse] at h
    have hSL : ∃ ss, pyIter ((kvs.lookup "sections").getD (JVal.arr [])) = .ok ss ∧
        ss.all wsSection = true := by
      cases hS : kvs.lookup "sections" with
      | none => exact ⟨[], rfl, rfl⟩
      | some v =>
        rw [hS] at h
        cases v
        case arr ss => exact ⟨ss, rfl, h⟩
        all_goals exact Bool.noConfusion h
    obtain ⟨ss, hiter, hws⟩ := hSL
    obtain ⟨out, hout⟩ := transformSections_ex hws
    rw [transformCourse_obj, hiter, eBindOk, hout, eBindOk, ePureEq]
    exact ⟨_, rfl⟩
  all_goals simp [wsCourse] at h

theorem transformCourses_ex {cs : List JVal} (h : cs.all wsCourse = true) :
    ∃ out, transformCourses cs = Except.ok out := by
  induction cs with
  | nil => exact ⟨[], rfl⟩
  | cons c rest ih =>
    rw [List.all_cons, Bool.and_eq_true] at h
    obtain ⟨out, hout⟩ := ih h.2
    obtain ⟨oc, hoc⟩ := transformCourse_ex h.1
    simp only [transformCourses]
    rw [hoc, eBindOk, hout, eBindOk, ePureEq]
    exact ⟨_, rfl⟩

/-- C1 (counterexample): the transform is not total on arbitrarily
malformed input.  A course whose `sections` key is present with value
`None` makes `for s in c.get("sections", [])` iterate over `None`,
raising `TypeError`; the wrong-shaped nested collection is not treated
as an empty collection. -/
theorem C1_cex_sections_null :
    transform_to_quacs_schema [JVal.obj [("sections", JVal.null)]] =
      Except.error "TypeError: object is not iterable" := rfl

/-- C1 (amended): the transform never raises and produces a well-formed
top-level document provided every raw course is a mapping and every
present `sections` / `instructors` / `meetings` value is a list of
mappings; absent nested collections are treated as empty collections. -/
theorem C1_no_raise_on_wellshaped (raw : List JVal) (h : wsCourses raw = true) :
    producesDoc (transform_to_quacs_schema raw) = true := by
  obtain ⟨out, hout⟩ := transformCourses_ex h
  simp only [transform_to_quacs_schema]
  rw [hout, eBindOk, ePureEq]
  rfl

/-- C1 witness: the amended theorem applied to a concrete well-shaped
input with an absent `sections` key. -/
theorem C1_no_raise_on_wellshaped_witness :
    wsCourses [JVal.obj [("title", JVal.str "X")]] = true ∧
    producesDoc (transform_to_quacs_schema [JVal.obj [("title", JVal.str "X")]]) = true :=
  ⟨rfl, C1_no_raise_on_wellshaped [JVal.obj [("title", JVal.str "X")]] rfl⟩

/-- C2: a raw course that is an empty mapping produces an output course
with subject `""`, number `""`, title `""`, credits `0` and no sections. -/
theorem C2_empty_course_defaults :
    transform_to_quacs_schema [JVal.obj []] =
      Except.ok (JVal.obj [("courses", JVal.arr [JVal.obj [
        ("id", JVal.str ""),
        ("subject", JVal.str ""),
        ("number", JVal.str ""),
        ("title", JVal.str ""),
        ("credits", JVal.num 0),
        ("sections", JVal.arr [])]])]) := rfl

/-- C3: whenever the transform succeeds, every output course has exactly
the keys id/subject/number/title/credits/sections, every output section
exactly section/instructors/meetings, and every output meeting exactly
the seven keys days/start/end/campus/building/room/modality — no key of
the fixed output schema is ever omitted. -/
theorem C3_output_keys_total (raw : List JVal) (doc : JVal)
    (h : transform_to_quacs_schema raw = Except.ok doc) : docShapeOk doc = true := by
  simp only [transform_to_quacs_schema] at h
  cases hC : transformCourses raw with
  | error e => rw [hC, eBindErr] at h; exact Except.noConfusion h
  | ok out =>
    rw [hC, eBindOk, ePureEq] at h
    injection h with h
    subst h
    exact transformCourses_all_ok hC

/-- C3 witness: the theorem applied to a raw course with one empty
section, whose output meeting/section/course dicts carry all fixed keys. -/
theorem C3_output_keys_total_witness :
    docShapeOk (JVal.obj [("courses", JVal.arr [JVal.obj [
      ("id", JVal.str ""),
      ("subject", JVal.str ""),
      ("number", JVal.str ""),
      ("title", JVal.str ""),
      ("credits", JVal.num 0),
      ("sections", JVal.arr [JVal.obj [
        ("section", JVal.str ""),
        ("instructors", JVal.arr []),
        ("meetings", JVal.arr [])]])]])]) = true :=
  C3_output_keys_total [JVal.obj [("sections", JVal.arr [JVal.obj []])]] _ rfl

/-- C6: the end-to-end one-course example; the transformed document has
exactly one course with id "CS 101", one section "A", one instructor
"J. Doe" and one meeting with days "MWF", start "09:00", end "10:15"
and modality "". -/
theorem C6_end_to_end :
    transform_to_quacs_schema [JVal.obj [
      ("subjectCode", JVal.str "CS"),
      ("courseNumber", JVal.str "101"),
      ("name", JVal.str "Intro"),
      ("credits", JVal.num 4),
      ("sections", JVal.arr [JVal.obj [
        ("sectionCode", JVal.str "A"),
        ("instructors", JVal.arr [JVal.obj [("name", JVal.str "J. Doe")]]),
        ("meetings", JVal.arr [JVal.obj [
          ("days", JVal.str "MWF"),
          ("startTime", JVal.str "09:00"),
          ("endTime", JVal.str "10:15"),
          ("campus", JVal.str "Main"),
          ("room", JVal.str "101")]])]])]] =
    Except.ok (JVal.obj [("courses", JVal.arr [JVal.obj [
      ("id", JVal.str "CS 101"),
      ("subject", JVal.str "CS"),
      ("number", JVal.str "101"),
      ("title", JVal.str "Intro"),
      ("credits", JVal.num 4),
      ("sections", JVal.arr [JVal.obj [
        ("section", JVal.str "A"),
        ("instructors", JVal.arr [JVal.str "J. Doe"]),
        ("meetings", JVal.arr [JVal.obj [
          ("days", JVal.str "MWF"),
          ("start", JVal.str "09:00"),
          ("end", JVal.str "10:15"),
          ("campus", JVal.str "Main"),
          ("building", JVal.null),
          ("room", JVal.str "101"),
          ("modality", JVal.str "")]])]])]])]) := rfl

/-- C5: whenever a raw course maps to an output course, its id field is
the subject and number rendered as strings, joined by a single space and
whitespace-stripped, exactly f-string style. -/
theorem C5_id_concat (kvs : List (String × JVal)) (oc : JVal)
    (h : transformCourse (JVal.obj kvs) = Except.ok oc) :
    getField oc "id" =
      some (JVal.str (pyStrip (pyStr (subjectOf kvs) ++ " " ++ pyStr (numberOf kvs)))) := by
  rw [transformCourse_obj] at h
  cases hI : pyIter ((kvs.lookup "sections").getD (JVal.arr [])) with
  | error e => rw [hI, eBindErr] at h; exact Except.noConfusion h
  | ok sectionsList =>
    rw [hI, eBindOk] at h
    cases hS : transformSections sectionsList with
    | error e => rw [hS, eBindErr] at h; exact Except.noConfusion h
    | ok sections_out =>
      rw [hS, eBindOk, ePureEq] at h
      injection h with h
      subst h
      rfl

/-- C5 witness: subject "CS" with number 101 gives id "CS 101"; subject
and number both missing give id "". -/
theorem C5_id_concat_witness :
    getField (JVal.obj [
      ("id", JVal.str "CS 101"),
      ("subject", JVal.str "CS"),
      ("number", JVal.str "101"),
      ("title", JVal.str ""),
      ("credits", JVal.num 0),
      ("sections", JVal.arr [])]) "id" = some (JVal.str "CS 101") ∧
    getField (JVal.obj [
      ("id", JVal.str ""),
      ("subject", JVal.str ""),
      ("number", JVal.str ""),
      ("title", JVal.str ""),
      ("credits", JVal.num 0),
      ("sections", JVal.arr [])]) "id" = some (JVal.str "") :=
  ⟨C5_id_concat [("subjectCode", JVal.str "CS"), ("courseNumber", JVal.num 101)] _ rfl,
   C5_id_concat [] _ rfl⟩

/-- C7 (counterexample): the output credits value is not always a
number.  A present truthy non-numeric credits value is passed through
verbatim: input credits "four" yields output credits "four", a string. -/
theorem C7_cex_credits_string :
    transform_to_quacs_schema [JVal.obj [("credits", JVal.str "four")]] =
      Except.ok (JVal.obj [("courses", JVal.arr [JVal.obj [
        ("id", JVal.str ""),
        ("subject", JVal.str ""),
        ("number", JVal.str ""),
        ("title", JVal.str ""),
        ("credits", JVal.str "four"),
        ("sections", JVal.arr [])]])]) ∧
    isNum (JVal.str "four") = false := ⟨rfl, rfl⟩

/-- C7 (amended): the output credits field is the first truthy value of
the credits/minCredits chain, or the number 0 when none is found; it is
never coerced, so it is a number whenever the looked-up input value is a
number (and in particular when both keys are absent). -/
theorem C7_credits_rule (kvs : List (String × JVal)) (oc : JVal)
    (h : transformCourse (JVal.obj kvs) = Except.ok oc) :
    getField oc "credits" = some (creditsOf kvs) ∧
    (kvs.lookup "credits" = none → kvs.lookup "minCredits" = none →
      getField oc "credits" = some (JVal.num 0)) ∧
    (∀ n : Int, kvs.lookup "credits" = some (JVal.num n) → n ≠ 0 →
      getField oc "credits" = some (JVal.num n)) := by
  rw [transformCourse_obj] at h
  cases hI : pyIter ((kvs.lookup "sections").getD (JVal.arr [])) with
  | error e => rw [hI, eBindErr] at h; exact Except.noConfusion h
  | ok sectionsList =>
    rw [hI, eBindOk] at h
    cases hS : transformSections sectionsList with
    | error e => rw [hS, eBindErr] at h; exact Except.noConfusion h
    | ok sections_out =>
      rw [hS, eBindOk, ePureEq] at h
      injection h with h
      subst h
      refine ⟨rfl, ?_, ?_⟩
      · intro h1 h2
        show some (creditsOf kvs) = some (JVal.num 0)
        simp [creditsOf, h1, h2, pyOr, truthy]
      · intro n hv hn
        show some (creditsOf kvs) = some (JVal.num n)
        simp [creditsOf, hv, pyOr, truthy, hn]

/-- C7 witness: a course with integer credits 4 keeps the number 4. -/
theorem C7_credits_rule_witness :
    getField (JVal.obj [
      ("id", JVal.str ""),
      ("subject", JVal.str ""),
      ("number", JVal.str ""),
      ("title", JVal.str ""),
      ("credits", JVal.num 4),
      ("sections", JVal.arr [])]) "credits" = some (JVal.num 4) :=
  (C7_credits_rule [("credits", JVal.num 4)] _ rfl).2.2 4 rfl (by decide)

/-- C4 (counterexample): a `name` field that exists but is falsy is not
used verbatim.  For `name` = "" with firstName "A." and lastName
"Smith", the claim predicts the verbatim empty name and hence an omitted
instructor (empty output list), but the code falls through to the
first/last derivation and emits "A. Smith". -/
theorem C4_cex_falsy_name_not_verbatim :
    collectInstructors [JVal.obj [
      ("name", JVal.str ""),
      ("firstName", JVal.str "A."),
      ("lastName", JVal.str "Smith")]] = Except.ok [JVal.str "A. Smith"] ∧
    (Except.ok [JVal.str "A. Smith"] : Except String (List JVal)) ≠ Except.ok [] :=
  ⟨rfl, fun h => absurd (Except.ok.inj h) (fun h2 => List.noConfusion h2)⟩

/-- C4 (amended): if a direct `name` field exists with a truthy value,
that value is used verbatim; otherwise the firstName and lastName fields
are joined with a single space and stripped; if the resulting string is
empty the instructor is omitted entirely from the output list. -/
theorem C4_instructor_name_rule (kvs : List (String × JVal)) (rest out : List JVal)
    (hrest : collectInstructors rest = Except.ok out) :
    (∀ v, kvs.lookup "name" = some v → truthy v = true →
      collectInstructors (JVal.obj kvs :: rest) = Except.ok (v :: out)) ∧
    (truthy ((kvs.lookup "name").getD JVal.null) = false →
      (joinedName kvs ≠ "" →
        collectInstructors (JVal.obj kvs :: rest) =
          Except.ok (JVal.str (joinedName kvs) :: out)) ∧
      (joinedName kvs = "" →
        collectInstructors (JVal.obj kvs :: rest) = Except.ok out)) := by
  rw [collectInstructors_cons_obj, hrest, eBindOk, ePureEq]
  constructor
  · intro v hv htv
    rw [hv]
    simp [pyOr, htv]
  · intro hfalse
    have hskip : pyOr ((kvs.lookup "name").getD JVal.null) (JVal.str (joinedName kvs)) =
        JVal.str (joinedName kvs) := by simp [pyOr, hfalse]
    rw [hskip]
    constructor
    · intro hj
      rw [if_pos (by simp [truthy, bne_iff_ne, hj])]
    · intro hj
      rw [hj]
      rw [if_neg (by simp [truthy])]

/-- C4 witness: the three concrete derivations of the claim — a truthy
direct name is verbatim, first/last are joined and stripped, and the
all-empty instructor is omitted. -/
theorem C4_instructor_name_rule_witness :
    collectInstructors [JVal.obj [("name", JVal.str "A. Smith")]] =
      Except.ok [JVal.str "A. Smith"] ∧
    collectInstructors [JVal.obj [("firstName", JVal.str "A."), ("lastName", JVal.str "Smith")]] =
      Except.ok [JVal.str "A. Smith"] ∧
    collectInstructors [JVal.obj [("firstName", JVal.str ""), ("lastName", JVal.str "")]] =
      Except.ok [] := by
  refine ⟨?_, ?_, ?_⟩
  · exact (C4_instructor_name_rule [("name", JVal.str "A. Smith")] [] [] rfl).1
      (JVal.str "A. Smith") rfl (by decide)
  · exact ((C4_instructor_name_rule [("firstName", JVal.str "A."), ("lastName", JVal.str "Smith")]
      [] [] rfl).2 (by decide)).1 (by decide)
  · exact ((C4_instructor_name_rule [("firstName", JVal.str ""), ("lastName", JVal.str "")]
      [] [] rfl).2 (by decide)).2 (by decide)

/-- C8: when the courses fetch fails with any error, the run aborts with
that error and the output file is exactly what it was before the run —
absent if it was absent, unchanged otherwise; no partial output. -/
theorem C8_fetch_failure_aborts (t : Except String JVal) (e : String) (fs0 : Option JVal) :
    (runMain ⟨t, Except.error e⟩ fs0).file = fs0 ∧
    (runMain ⟨t, Except.error e⟩ fs0).result = Except.error e := ⟨rfl, rfl⟩

/-- C9: a terms-fetch failure is logged as a warning and the run still
reaches the courses fetch; the run outcome (result and file) is the same
as if the terms fetch had succeeded; a courses-fetch failure, by
contrast, propagates as the run's error. -/
theorem C9_terms_best_effort (e : String) (t : JVal)
    (c : Except String (List JVal)) (fs0 : Option JVal) :
    LogMsg.termsWarning e ∈ (runMain ⟨Except.error e, c⟩ fs0).logs ∧
    LogMsg.fetchingCourses ∈ (runMain ⟨Except.error e, c⟩ fs0).logs ∧
    (runMain ⟨Except.error e, c⟩ fs0).result = (runMain ⟨Except.ok t, c⟩ fs0).result ∧
    (runMain ⟨Except.error e, c⟩ fs0).file = (runMain ⟨Except.ok t, c⟩ fs0).file ∧
    (∀ e2 : String, (runMain ⟨Except.ok t, Except.error e2⟩ fs0).result = Except.error e2) := by
  refine ⟨?_, ?_, ?_, ?_, fun e2 => rfl⟩ <;>
  · cases c with
    | error e2 => simp [runMain]
    | ok raw =>
      cases htr : transform_to_quacs_schema raw <;> simp [runMain, htr]

/-- C10 (counterexample): in the campus chain `m.get("campus") or
m.get("campusName")` a present-but-falsy last candidate is not treated
as if absent: `campusName` = "" yields campus "", while omitting the key
yields campus null. -/
theorem C10_cex_campus_falsy_vs_absent :
    transformMeeting (JVal.obj [("campusName", JVal.str "")]) =
      Except.ok (JVal.obj [
        ("days", JVal.str ""),
        ("start", JVal.null),
        ("end", JVal.null),
        ("campus", JVal.str ""),
        ("building", JVal.null),
        ("room", JVal.str ""),
        ("modality", JVal.str "")]) ∧
    transformMeeting (JVal.obj []) =
      Except.ok (JVal.obj [
        ("days", JVal.str ""),
        ("start", JVal.null),
        ("end", JVal.null),
        ("campus", JVal.null),
        ("building", JVal.null),
        ("room", JVal.str ""),
        ("modality", JVal.str "")]) ∧
    JVal.str "" ≠ JVal.null :=
  ⟨rfl, rfl, fun h => JVal.noConfusion h⟩

/-- C10 (amended): in a fallback chain a falsy candidate is skipped in
favour of the rest of the chain (`a or b` with falsy `a` is `b`), so in
chains ending in a literal default a present-but-falsy value acts like
an absent key: courseNumber 0 yields number "" and a present empty name
falls through to the first/last derivation.  In the campus and building
chains, which end in a key lookup instead of a literal, the last
candidate is used verbatim even when falsy, so a present empty string
differs from an absent key (which gives null). -/
theorem C10_falsy_skipped_rule :
    (∀ v w : JVal, truthy v = false → pyOr v w = w) ∧
    transform_to_quacs_schema [JVal.obj [("courseNumber", JVal.num 0)]] =
      Except.ok (JVal.obj [("courses", JVal.arr [JVal.obj [
        ("id", JVal.str ""),
        ("subject", JVal.str ""),
        ("number", JVal.str ""),
        ("title", JVal.str ""),
        ("credits", JVal.num 0),
        ("sections", JVal.arr [])]])]) ∧
    collectInstructors [JVal.obj [
      ("name", JVal.str ""),
      ("firstName", JVal.str "A."),
      ("lastName", JVal.str "Smith")]] = Except.ok [JVal.str "A. Smith"] ∧
    getField (JVal.obj [("campus", pyOr JVal.null (JVal.str ""))]) "campus" =
      some (JVal.str "") :=
  ⟨fun v w h => by simp [pyOr, h], rfl, rfl, rfl⟩

/-- C10 witness: the skip rule applied to the falsy candidate null. -/
theorem C10_falsy_skipped_rule_witness :
    truthy JVal.null = false ∧ pyOr JVal.null (JVal.str "x") = JVal.str "x" :=
  ⟨rfl, C10_falsy_skipped_rule.1 JVal.null (JVal.str "x") rfl⟩
